import Mathlib

/-!
Shallow embedding of the OAuth token lifecycle and authenticated API client
subsystem of the sidekick repository:

* `src/tools/simple_token_manager.py`    (`SimpleTokenManager`)
* `src/tools/agentcore_token_manager.py` (`AgentCoreTokenManager`)
* `src/tools/atlassian_oauth_config.py`  (`AtlassianOAuthConfig`)
* `src/app/oauth_handler.py`             (`OAuthHandler`)
* `src/tools/atlassian_api_client.py`    (`AtlassianAPIClient`)

Modelling conventions:

* `datetime.utcnow()` is modelled as an explicit `now : Int` parameter
  (a timestamp in seconds); every method that reads the clock takes it.
* Python dictionaries keyed by strings (`_token_storage`, `_state_cache`)
  are modelled as total functions `String → Option _` with pointwise update.
* Python truthiness on strings (`if not access_token:`) is the test
  `access_token = ""`; `dict.get(k)` returning `None` for an absent key is
  an `Option` field, and `dict.get(k, default)` is `Option.getD`.
* Outbound HTTP calls (`requests.post`, `session.request`) are modelled by
  passing the observed response (or the raised transport exception) as an
  explicit argument; the embedding then reproduces the source's control
  flow on that observation.
* Raised exceptions that cross a function boundary are explicit outcome
  constructors; `async` is irrelevant to the sequential control flow and
  is dropped.
-/

namespace Sidekick

/-- A stored token record: the value `SimpleTokenManager.store_tokens` puts
into `_token_storage[user_id]` (and the record the AgentCore backend holds).
`expires_at` is always present because records are only created by
`store_tokens`, which always computes it. -/
structure TokenRecord where
  access_token : String
  refresh_token : String
  token_type : String
  expires_at : Int
  stored_at : Int
deriving Repr, DecidableEq

/-- The token storage dictionary, keyed by user id
(`SimpleTokenManager._token_storage`, and the per-user record held by the
AgentCore Identity backend). -/
def Storage : Type := String → Option TokenRecord

/-- Pointwise dictionary update (`d[u] = r` / `del d[u]`). -/
def Storage.set (σ : Storage) (u : String) (r : Option TokenRecord) : Storage :=
  fun v => if v = u then r else σ v

/-- The dictionary returned by `check_token_status` in both managers. -/
structure TokenStatus where
  is_valid : Bool
  expires_at : Option Int
  is_expired : Bool
  error : Option String
deriving Repr, DecidableEq

/-- The JSON body of a token-endpoint response together with its HTTP
status, as the refresh code reads it: each field is `token_data.get(...)`
(`none` = key absent). -/
structure TokenEndpointResponse where
  status_code : Nat
  access_token : Option String
  refresh_token : Option String
  expires_in : Option Int
  token_type : Option String
  error : Option String
deriving Repr, DecidableEq

/-- Outcome of the `requests.post` to the token endpoint:
either a response or a raised transport exception
(`Timeout` / `ConnectionError` / other `RequestException`). -/
inductive NetResult where
  | ok (r : TokenEndpointResponse)
  | exn
deriving Repr, DecidableEq

/-- The dictionary returned by `refresh_access_token`. -/
structure RefreshResult where
  success : Bool
  error : Option String
  access_token : Option String
  expires_in : Option Int
deriving Repr, DecidableEq

namespace SimpleTokenManager

/-- `SimpleTokenManager.store_tokens` (src/tools/simple_token_manager.py,
lines 44-83): computes `expires_at = now + expires_in`, replaces the whole
record for `user_id`, and returns `True`.  (The `except` branch returning
`False` fires only if the dictionary assignment itself raises, which cannot
happen; on that path nothing has been stored.) -/
def store_tokens (u access_token refresh_token : String) (expires_in : Int)
    (token_type : String) (now : Int) (σ : Storage) : Bool × Storage :=
  (true, Storage.set σ u (some
    { access_token := access_token
      refresh_token := refresh_token
      token_type := token_type
      expires_at := now + expires_in
      stored_at := now }))

/-- `SimpleTokenManager.get_access_token` (lines 85-132): `None` when no
record exists, `None` when `now >= expires_at`, `None` when the stored
access token is falsy, otherwise the stored access token. -/
def get_access_token (u : String) (now : Int) (σ : Storage) : Option String :=
  match σ u with
  | none => none
  | some td =>
    if td.expires_at ≤ now then none
    else if td.access_token = "" then none
    else some td.access_token

/-- `SimpleTokenManager.get_refresh_token` (lines 134-161): no expiry
check; `None` when absent or falsy. -/
def get_refresh_token (u : String) (σ : Storage) : Option String :=
  match σ u with
  | none => none
  | some td =>
    if td.refresh_token = "" then none
    else some td.refresh_token

/-- `SimpleTokenManager.check_token_status` (lines 295-339):
`is_expired = datetime.utcnow() >= expires_at`, `is_valid = not is_expired`.
(`expires_at` is reported as a timestamp rather than its `isoformat`
string.) -/
def check_token_status (u : String) (now : Int) (σ : Storage) : TokenStatus :=
  match σ u with
  | none =>
    { is_valid := false, expires_at := none, is_expired := true
      error := some "No tokens found" }
  | some td =>
    let is_expired : Bool := decide (td.expires_at ≤ now)
    { is_valid := !is_expired, expires_at := some td.expires_at
      is_expired := is_expired, error := none }

/-- `SimpleTokenManager.revoke_tokens` (lines 341-359): deletes the record
if present and returns `True` either way. -/
def revoke_tokens (u : String) (σ : Storage) : Bool × Storage :=
  (true, Storage.set σ u none)

/-- `SimpleTokenManager.refresh_access_token` (lines 163-293).
`hasConfig` is `self.oauth_config is not None`; `resp` is the outcome of
the `requests.post` to the token endpoint (only reached when a config and
a refresh token are available).  A raised transport exception is caught by
the single blanket `except Exception` and reported as `unexpected_error`.
On a 200 response the new record replaces the old one wholesale via
`store_tokens`; every failure path returns before `store_tokens` runs. -/
def refresh_access_token (hasConfig : Bool) (u : String) (resp : NetResult)
    (now : Int) (σ : Storage) : RefreshResult × Storage :=
  if !hasConfig then
    ({ success := false, error := some "configuration_error"
       access_token := none, expires_in := none }, σ)
  else
    match get_refresh_token u σ with
    | none =>
      ({ success := false, error := some "no_refresh_token"
         access_token := none, expires_in := none }, σ)
    | some rt =>
      match resp with
      | .exn =>
        ({ success := false, error := some "unexpected_error"
           access_token := none, expires_in := none }, σ)
      | .ok r =>
        if r.status_code = 200 then
          let newAccess := r.access_token.getD ""
          let newRefresh := r.refresh_token.getD rt
          let expires_in := r.expires_in.getD 3600
          let token_type := r.token_type.getD "Bearer"
          if newAccess = "" then
            ({ success := false, error := some "invalid_response"
               access_token := none, expires_in := none }, σ)
          else
            let st := store_tokens u newAccess newRefresh expires_in token_type now σ
            if st.1 then
              ({ success := true, error := none
                 access_token := some newAccess, expires_in := some expires_in }, st.2)
            else
              ({ success := false, error := some "storage_error"
                 access_token := none, expires_in := none }, σ)
        else
          ({ success := false, error := some (r.error.getD "unknown_error")
             access_token := none, expires_in := none }, σ)

end SimpleTokenManager

namespace AgentCoreTokenManager

/-- `AgentCoreTokenManager.get_access_token`
(src/tools/agentcore_token_manager.py, lines 108-153): asks the backend for
the record's `accessToken` and returns it when truthy; a
`ResourceNotFoundException` (no record) yields `None`.  Unlike
`SimpleTokenManager`, no expiry check is performed. -/
def get_access_token (u : String) (σ : Storage) : Option String :=
  match σ u with
  | none => none
  | some td =>
    if td.access_token = "" then none
    else some td.access_token

/-- `AgentCoreTokenManager.get_refresh_token` (lines 155-199): same shape,
on the stored `refreshToken`. -/
def get_refresh_token (u : String) (σ : Storage) : Option String :=
  match σ u with
  | none => none
  | some td =>
    if td.refresh_token = "" then none
    else some td.refresh_token

/-- `AgentCoreTokenManager.check_token_status` (lines 384-479): when the
backend reports no `expiresAt`, the no-tokens status; otherwise
`is_expired = datetime.utcnow() >= expires_at`, `is_valid = not is_expired`
(the stored `expiresAt` isoformat string round-trips through
`fromisoformat`, modelled as the timestamp itself).  Backend transport
failures, which the code maps to the invalid status, are outside this
model. -/
def check_token_status (u : String) (now : Int) (σ : Storage) : TokenStatus :=
  match σ u with
  | none =>
    { is_valid := false, expires_at := none, is_expired := true
      error := some "No tokens found" }
  | some td =>
    let is_expired : Bool := decide (td.expires_at ≤ now)
    { is_valid := !is_expired, expires_at := some td.expires_at
      is_expired := is_expired, error := none }

/-- `AgentCoreTokenManager.store_tokens` (lines 47-106): computes
`expires_at = now + expires_in` and sends the full record to the backend,
returning `True`.  AWS transport failures (which the code re-raises) are
outside this model. -/
def store_tokens (u access_token refresh_token : String) (expires_in : Int)
    (token_type : String) (now : Int) (σ : Storage) : Bool × Storage :=
  (true, Storage.set σ u (some
    { access_token := access_token
      refresh_token := refresh_token
      token_type := token_type
      expires_at := now + expires_in
      stored_at := now }))

/-- `AgentCoreTokenManager.revoke_tokens` (lines 481-523): deletes the
record and returns `True`; a `ResourceNotFoundException` (nothing stored)
is also treated as success.  Other AWS transport failures (re-raised by
the code) are outside this model. -/
def revoke_tokens (u : String) (σ : Storage) : Bool × Storage :=
  (true, Storage.set σ u none)

end AgentCoreTokenManager

/-- `AtlassianOAuthConfig.DEFAULT_SCOPES`
(src/tools/atlassian_oauth_config.py, lines 25-37). -/
def DEFAULT_SCOPES : List String :=
  ["read:jira-work", "write:jira-work", "read:jira-user",
   "read:page:confluence", "read:blogpost:confluence",
   "read:space:confluence", "read:content:confluence",
   "offline_access"]

/-- The configuration state built by `AtlassianOAuthConfig.__init__`
(src/tools/atlassian_oauth_config.py).  The endpoint constants, identity
ARN and demo user id play no part in validation and are omitted. -/
structure AtlassianOAuthConfig where
  client_id : String
  client_secret : String
  redirect_uri : String
  scopes : List String
deriving Repr, DecidableEq

namespace AtlassianOAuthConfig

/-- The constructor's field initialisation (lines 62-65):
`self.scopes = scopes or self.DEFAULT_SCOPES`, so both `None` and an empty
list fall back to the defaults (Python truthiness on lists). -/
def init (client_id client_secret redirect_uri : String)
    (scopes : Option (List String)) : AtlassianOAuthConfig :=
  { client_id := client_id
    client_secret := client_secret
    redirect_uri := redirect_uri
    scopes :=
      match scopes with
      | none => DEFAULT_SCOPES
      | some [] => DEFAULT_SCOPES
      | some l => l }

/-- `AtlassianOAuthConfig._validate` (lines 72-96): a chain of `if`
checks, each `raise ValueError(msg)` aborting at the first violation.
`some msg` is the message of the raised `ValueError`, `none` means
validation passed. -/
def validate (c : AtlassianOAuthConfig) : Option String :=
  if c.client_id = "" then
    some "ATLASSIAN_OAUTH_CLIENT_ID is required"
  else if c.client_secret = "" then
    some "ATLASSIAN_OAUTH_CLIENT_SECRET is required"
  else if c.redirect_uri = "" then
    some "ATLASSIAN_OAUTH_REDIRECT_URI is required"
  else if !(c.redirect_uri.startsWith "https://"
            || c.redirect_uri.startsWith "http://localhost") then
    some "ATLASSIAN_OAUTH_REDIRECT_URI must use HTTPS (or http://localhost for development)"
  else if c.scopes = [] then
    some "At least one OAuth scope is required"
  else
    none

end AtlassianOAuthConfig

namespace OAuthHandler

/-- `OAuthHandler._state_cache`: a dict from CSRF state value to its
issuance timestamp (`datetime.utcnow()` at generation). -/
def StateCache : Type := String → Option Int

/-- Delete one entry (`del self._state_cache[state]`). -/
def StateCache.erase (cache : StateCache) (state : String) : StateCache :=
  fun v => if v = state then none else cache v

/-- The state-recording effect of `OAuthHandler.generate_auth_url`
(src/app/oauth_handler.py, lines 56-88): the freshly generated
`secrets.token_urlsafe(32)` value is passed in as `state`, and
`self._state_cache[state] = datetime.utcnow()` records it.  (The returned
authorization URL is built by `AtlassianOAuthConfig.get_authorization_url`
and is not consulted by any claim.) -/
def generate_auth_url (state : String) (now : Int) (cache : StateCache) :
    StateCache :=
  fun v => if v = state then some now else cache v

/-- `OAuthHandler._validate_state` (lines 90-117): unknown state is
rejected and the cache is untouched; a known state is deleted on this
first validation attempt whether it is accepted or rejected as expired,
and it is rejected exactly when its age exceeds 600 seconds. -/
def validate_state (state : String) (now : Int) (cache : StateCache) :
    Bool × StateCache :=
  match cache state with
  | none => (false, cache)
  | some ts =>
    if now - ts > 600 then (false, StateCache.erase cache state)
    else (true, StateCache.erase cache state)

/-- Outcome of `OAuthHandler._exchange_code_for_tokens` (lines 249-349)
as observed by `handle_callback`: a success dictionary carrying the
tokens, a failure dictionary (non-200 response, missing `access_token`,
or an unexpected exception), or a raised `NetworkError` (timeout /
request exception). -/
inductive ExchangeOutcome where
  | success (access_token refresh_token : String) (expires_in : Int)
      (token_type : String)
  | failure (error : String)
  | netError
deriving Repr, DecidableEq

/-- The `success`/`error` part of the dictionary returned by
`OAuthHandler.handle_callback` (the informational `user_info`/`cloud_id`
fields are filled best-effort and decide nothing). -/
structure CallbackResult where
  success : Bool
  error : Option String
deriving Repr, DecidableEq

/-- `OAuthHandler.handle_callback` (lines 119-247), with the code
exchange's outcome passed in as `exch` and the token-store outcome as
`store_ok`.  Returns the result dictionary, the state cache after the
call, and the number of token-endpoint (code-exchange) calls made.
The accessible-resources and user-info fetches (steps 3-4) are
best-effort: their failures only change informational fields, never the
success/error outcome, so they are not modelled. -/
def handle_callback (state : String) (now : Int) (cache : StateCache)
    (exch : ExchangeOutcome) (store_ok : Bool) :
    CallbackResult × StateCache × Nat :=
  let v := validate_state state now cache
  if v.1 = false then
    ({ success := false, error := some "invalid_state" }, v.2, 0)
  else
    match exch with
    | .netError => ({ success := false, error := some "network_error" }, v.2, 1)
    | .failure e => ({ success := false, error := some e }, v.2, 1)
    | .success _ _ _ _ =>
      if store_ok then ({ success := true, error := none }, v.2, 1)
      else ({ success := false, error := some "storage_error" }, v.2, 1)

end OAuthHandler

namespace AtlassianAPIClient

/-- An HTTP response as the client inspects it: only the status code
decides the control flow of `_request`. -/
structure HttpResponse where
  status_code : Nat
deriving Repr, DecidableEq

/-- Outcome of one `session.request` call inside
`_make_request_with_retry`: a response, or a raised
`requests.exceptions.Timeout` / `ConnectionError` (both retried by the
tenacity policy), or another raised `RequestException` (not retried). -/
inductive NetAttempt where
  | ok (r : HttpResponse)
  | timeout
  | connError
  | otherExn
deriving Repr, DecidableEq

/-- What a call to `_make_request_with_retry` produces, with the number
of `session.request` attempts it made:
a response, a raised `tenacity.RetryError` after the retry policy is
exhausted (tenacity's default `reraise=False`), or a non-retried
exception propagating from the attempt that raised it. -/
inductive RetryOutcome where
  | ok (r : HttpResponse) (attempts : Nat)
  | exhausted (attempts : Nat)
  | raisedOther (attempts : Nat)
deriving Repr, DecidableEq

/-- `AtlassianAPIClient._make_request_with_retry`
(src/tools/atlassian_api_client.py, lines 326-364): tenacity with
`stop_after_attempt(3)` and
`retry_if_exception_type((Timeout, ConnectionError))`.  `f i` is the
outcome of the `(i+1)`-th `session.request` call.  A response is returned
whatever its status code; a `Timeout`/`ConnectionError` is retried until
the third attempt, after which tenacity raises `RetryError`; any other
exception propagates at once. -/
def make_request_with_retry (f : Nat → NetAttempt) : RetryOutcome :=
  match f 0 with
  | .ok r => .ok r 1
  | .otherExn => .raisedOther 1
  | _ =>
    match f 1 with
    | .ok r => .ok r 2
    | .otherExn => .raisedOther 2
    | _ =>
      match f 2 with
      | .ok r => .ok r 3
      | .otherExn => .raisedOther 3
      | _ => .exhausted 3

/-- The typed outcome escaping `AtlassianAPIClient._request` to its
caller: either a returned response or the exception that propagates.
`networkError` is the mapping of a directly raised `Timeout` /
`ConnectionError` (the `except` clauses at lines 300-310) — unreachable
for the retried call, whose exhaustion arrives wrapped in a
`RetryError`; `rawRetryError` is that `tenacity.RetryError`, which none
of the `except` clauses of `_request` matches, so it crosses the client
boundary untyped. -/
inductive RequestOutcome where
  | ok (r : HttpResponse)
  | invalidToken
  | tokenRefreshFailed
  | rateLimited
  | permissionDenied
  | notFound
  | serverError (status : Nat)
  | apiError
  | networkError
  | rawRetryError
deriving Repr, DecidableEq

/-- The observable behaviour of `token_manager.refresh_access_token` as
`_request` sees it: whether the returned dictionary has `success = True`,
how many HTTP calls the token manager made for it (at most one
`requests.post` to the token endpoint, possibly zero when it fails before
reaching the network), and the token that `get_access_token` yields
afterwards. -/
structure RefreshBehavior where
  success : Bool
  httpCalls : Nat
  newToken : Option String
deriving Repr, DecidableEq

/-- `AtlassianAPIClient._request` (src/tools/atlassian_api_client.py,
lines 113-324), returning the outcome together with the total number of
HTTP calls made (attempts of the first `_make_request_with_retry`, plus
the refresh's own HTTP calls, plus attempts of the retried request).

* `tok0`: the access token initially returned by the token store
  (`None` aborts with `InvalidTokenError` before any network call).
* `f1` / `f2`: per-attempt outcomes of the original and the reissued
  request.
* `refresh`: behaviour of the single `refresh_access_token` call.

On a 401 the raised `TokenExpiredError` enters the refresh handler
(lines 220-294), whose inner `try` re-raises only `TokenRefreshError`
unchanged: every other exception raised after the refresh — including the
`InvalidTokenError` for a second 401, the re-raised typed status errors,
and a `RetryError` from the reissued request — is caught by the blanket
`except Exception` and wrapped into a `TokenRefreshError`. -/
def request (tok0 : Option String) (f1 : Nat → NetAttempt)
    (refresh : RefreshBehavior) (f2 : Nat → NetAttempt) :
    RequestOutcome × Nat :=
  match tok0 with
  | none => (.invalidToken, 0)
  | some _ =>
    match make_request_with_retry f1 with
    | .exhausted n => (.rawRetryError, n)
    | .raisedOther n => (.apiError, n)
    | .ok r n =>
      if r.status_code = 401 then
        -- TokenExpiredError handler: one refresh, one reissue
        if !refresh.success then (.tokenRefreshFailed, n + refresh.httpCalls)
        else
          match refresh.newToken with
          | none =>
            -- InvalidTokenError from _get_auth_header, wrapped by the
            -- blanket handler into TokenRefreshError
            (.tokenRefreshFailed, n + refresh.httpCalls)
          | some _ =>
            match make_request_with_retry f2 with
            | .exhausted m => (.tokenRefreshFailed, n + refresh.httpCalls + m)
            | .raisedOther m => (.tokenRefreshFailed, n + refresh.httpCalls + m)
            | .ok r2 m =>
              let calls := n + refresh.httpCalls + m
              if r2.status_code = 401 then (.tokenRefreshFailed, calls)
              else if r2.status_code = 429 then (.tokenRefreshFailed, calls)
              else if r2.status_code = 403 then (.tokenRefreshFailed, calls)
              else if r2.status_code = 404 then (.tokenRefreshFailed, calls)
              else if r2.status_code ≥ 500 then (.tokenRefreshFailed, calls)
              else if r2.status_code ≥ 400 then (.tokenRefreshFailed, calls)
              else (.ok r2, calls)
      else if r.status_code = 429 then (.rateLimited, n)
      else if r.status_code = 403 then (.permissionDenied, n)
      else if r.status_code = 404 then (.notFound, n)
      else if r.status_code ≥ 500 then (.serverError r.status_code, n)
      else if r.status_code ≥ 400 then (.apiError, n)
      else (.ok r, n)

end AtlassianAPIClient

/-! ## Theorems -/

/-- C5: at the failing input — the same stored record, already expired at
the current time — the two token store implementations disagree:
`SimpleTokenManager.get_access_token` reports the access token absent,
while `AgentCoreTokenManager.get_access_token` returns the stored token
because it performs no expiry check (contradicting its own docstring,
"Access token if available and valid"). -/
theorem get_access_token_expired_record_divergence :
    SimpleTokenManager.get_access_token "u" 200
        (Storage.set (fun _ => none) "u" (some ⟨"tok", "ref", "Bearer", 100, 0⟩)) = none ∧
    AgentCoreTokenManager.get_access_token "u"
        (Storage.set (fun _ => none) "u" (some ⟨"tok", "ref", "Bearer", 100, 0⟩)) = some "tok" := by
  constructor <;> rfl

/-- C7 counterexample: the claim quantifies over every stored token
record, but for a record stored with the empty access token the
round-trip fails: `store_tokens` succeeds, yet the immediate
`get_access_token` returns `None` (Python truthiness treats `""` as
absent) rather than the stored access token `""`. -/
theorem store_then_get_empty_token_counterexample :
    (SimpleTokenManager.store_tokens "u" "" "r" 3600 "Bearer" 0 (fun _ => none)).1 = true ∧
    SimpleTokenManager.get_access_token "u" 0
        (SimpleTokenManager.store_tokens "u" "" "r" 3600 "Bearer" 0 (fun _ => none)).2 = none ∧
    (none : Option String) ≠ some "" := by
  refine ⟨rfl, rfl, by simp⟩

/-- C7 (amended): for every user and every token record with a non-empty
access token stored with a positive `expires_in`, `store_tokens` followed
immediately by `get_access_token` returns exactly the stored access
token, and `check_token_status` immediately after the store reports
`is_valid = true` and `is_expired = false`. -/
theorem store_then_get_round_trip (u a r : String) (e : Int) (t : String)
    (now : Int) (σ : Storage) (ha : a ≠ "") (he : 0 < e) :
    (SimpleTokenManager.store_tokens u a r e t now σ).1 = true ∧
    SimpleTokenManager.get_access_token u now
        (SimpleTokenManager.store_tokens u a r e t now σ).2 = some a ∧
    (SimpleTokenManager.check_token_status u now
        (SimpleTokenManager.store_tokens u a r e t now σ).2).is_valid = true ∧
    (SimpleTokenManager.check_token_status u now
        (SimpleTokenManager.store_tokens u a r e t now σ).2).is_expired = false := by
  have hne : ¬ (now + e ≤ now) := by omega
  refine ⟨rfl, ?_, ?_, ?_⟩ <;>
    simp [SimpleTokenManager.store_tokens, SimpleTokenManager.get_access_token,
      SimpleTokenManager.check_token_status, Storage.set, hne, ha]

/-- C7 witness: the amended round trip evaluated at a concrete input. -/
theorem store_then_get_round_trip_witness :
    (SimpleTokenManager.store_tokens "u" "a" "r" 3600 "Bearer" 0 (fun _ => none)).1 = true ∧
    SimpleTokenManager.get_access_token "u" 0
        (SimpleTokenManager.store_tokens "u" "a" "r" 3600 "Bearer" 0 (fun _ => none)).2 = some "a" ∧
    (SimpleTokenManager.check_token_status "u" 0
        (SimpleTokenManager.store_tokens "u" "a" "r" 3600 "Bearer" 0 (fun _ => none)).2).is_valid = true ∧
    (SimpleTokenManager.check_token_status "u" 0
        (SimpleTokenManager.store_tokens "u" "a" "r" 3600 "Bearer" 0 (fun _ => none)).2).is_expired = false :=
  store_then_get_round_trip "u" "a" "r" 3600 "Bearer" 0 (fun _ => none)
    (by decide) (by decide)

/-- C8: a record whose `expires_at` equals the current time exactly is
reported expired and invalid by `check_token_status` in both token store
implementations (expiry is `now >= expires_at`, exclusive of the current
instant). -/
theorem check_token_status_boundary_expired (u : String) (now : Int)
    (td : TokenRecord) (σ : Storage) (h : σ u = some td)
    (hb : td.expires_at = now) :
    (SimpleTokenManager.check_token_status u now σ).is_expired = true ∧
    (SimpleTokenManager.check_token_status u now σ).is_valid = false ∧
    (AgentCoreTokenManager.check_token_status u now σ).is_expired = true ∧
    (AgentCoreTokenManager.check_token_status u now σ).is_valid = false := by
  simp [SimpleTokenManager.check_token_status,
    AgentCoreTokenManager.check_token_status, h, hb]

/-- C8 witness: the boundary behaviour evaluated at a concrete record
whose expiry timestamp equals the current time. -/
theorem check_token_status_boundary_expired_witness :
    (SimpleTokenManager.check_token_status "u" 100
        (fun _ => some ⟨"a", "r", "Bearer", 100, 0⟩)).is_expired = true ∧
    (SimpleTokenManager.check_token_status "u" 100
        (fun _ => some ⟨"a", "r", "Bearer", 100, 0⟩)).is_valid = false ∧
    (AgentCoreTokenManager.check_token_status "u" 100
        (fun _ => some ⟨"a", "r", "Bearer", 100, 0⟩)).is_expired = true ∧
    (AgentCoreTokenManager.check_token_status "u" 100
        (fun _ => some ⟨"a", "r", "Bearer", 100, 0⟩)).is_valid = false :=
  check_token_status_boundary_expired "u" 100 ⟨"a", "r", "Bearer", 100, 0⟩
    (fun _ => some ⟨"a", "r", "Bearer", 100, 0⟩) rfl rfl

/-- C9: revoke is idempotent and total on success in both token store
implementations: it returns success whatever is stored for the user — in
particular when no record exists — and revoking twice in a row returns
success both times. -/
theorem revoke_tokens_idempotent_success (u : String) (σ : Storage) :
    (SimpleTokenManager.revoke_tokens u σ).1 = true ∧
    (SimpleTokenManager.revoke_tokens u
        (SimpleTokenManager.revoke_tokens u σ).2).1 = true ∧
    (AgentCoreTokenManager.revoke_tokens u σ).1 = true ∧
    (AgentCoreTokenManager.revoke_tokens u
        (AgentCoreTokenManager.revoke_tokens u σ).2).1 = true :=
  ⟨rfl, rfl, rfl, rfl⟩

/-- C10: `SimpleTokenManager.refresh_access_token` is atomic with respect
to the stored record: on every failure path (missing OAuth config, no
refresh token, raised transport exception, non-200 token-endpoint
response, 200 response lacking an access token) it returns a failure
value with the storage completely unchanged, and when it succeeds the
user's record is replaced wholesale with the freshly stored one, whose
access token is the one reported in the result. -/
theorem refresh_access_token_atomic (hasConfig : Bool) (u : String)
    (resp : NetResult) (now : Int) (σ : Storage) :
    ((SimpleTokenManager.refresh_access_token hasConfig u resp now σ).1.success = false →
      (SimpleTokenManager.refresh_access_token hasConfig u resp now σ).2 = σ) ∧
    ((SimpleTokenManager.refresh_access_token hasConfig u resp now σ).1.success = true →
      ∃ td : TokenRecord,
        (SimpleTokenManager.refresh_access_token hasConfig u resp now σ).2 =
          Storage.set σ u (some td) ∧
        (SimpleTokenManager.refresh_access_token hasConfig u resp now σ).1.access_token =
          some td.access_token) := by
  cases hasConfig with
  | false =>
    constructor
    · intro _
      rfl
    · intro h
      simp [SimpleTokenManager.refresh_access_token] at h
  | true =>
    rcases hrt : SimpleTokenManager.get_refresh_token u σ with _ | rt
    · constructor
      · intro _
        simp [SimpleTokenManager.refresh_access_token, hrt]
      · intro h
        simp [SimpleTokenManager.refresh_access_token, hrt] at h
    · cases resp with
      | exn =>
        constructor
        · intro _
          simp [SimpleTokenManager.refresh_access_token, hrt]
        · intro h
          simp [SimpleTokenManager.refresh_access_token, hrt] at h
      | ok r =>
        by_cases h200 : r.status_code = 200
        · by_cases hacc : r.access_token.getD "" = ""
          · constructor
            · intro _
              simp [SimpleTokenManager.refresh_access_token, hrt, h200, hacc]
            · intro h
              simp [SimpleTokenManager.refresh_access_token, hrt, h200, hacc] at h
          · constructor
            · intro h
              simp [SimpleTokenManager.refresh_access_token,
                SimpleTokenManager.store_tokens, hrt, h200, hacc] at h
            · intro _
              simp [SimpleTokenManager.refresh_access_token,
                SimpleTokenManager.store_tokens, hrt, h200, hacc]
              exact ⟨_, rfl, rfl⟩
        · constructor
          · intro _
            simp [SimpleTokenManager.refresh_access_token, hrt, h200]
          · intro h
            simp [SimpleTokenManager.refresh_access_token, hrt, h200] at h

/-- C10 witness: a concrete failure path (no OAuth configuration) returns
failure and leaves a concrete storage untouched. -/
theorem refresh_access_token_atomic_witness :
    (SimpleTokenManager.refresh_access_token false "u" NetResult.exn 0
        (fun _ => none)).1.success = false ∧
    (SimpleTokenManager.refresh_access_token false "u" NetResult.exn 0
        (fun _ => none)).2 = (fun _ => none) :=
  ⟨rfl, (refresh_access_token_atomic false "u" NetResult.exn 0 (fun _ => none)).1 rfl⟩

/-- C2: CSRF state lifecycle of `OAuthHandler._validate_state`:
a state never issued is rejected with the pending map untouched; an
issued state is deleted from the pending map on its first validation
attempt whatever the outcome; a state older than 600 seconds at
validation time is rejected; and presenting the same state a second time
(after any first attempt) is rejected. -/
theorem validate_state_consume_once (state : String) (now : Int)
    (cache : OAuthHandler.StateCache) :
    (cache state = none →
      OAuthHandler.validate_state state now cache = (false, cache)) ∧
    (∀ ts : Int, cache state = some ts →
      (OAuthHandler.validate_state state now cache).2 state = none ∧
      (now - ts > 600 → (OAuthHandler.validate_state state now cache).1 = false) ∧
      (OAuthHandler.validate_state state now
          (OAuthHandler.validate_state state now cache).2).1 = false) := by
  constructor
  · intro h
    simp [OAuthHandler.validate_state, h]
  · intro ts h
    by_cases h6 : now - ts > 600
    · simp [OAuthHandler.validate_state, OAuthHandler.StateCache.erase, h, h6]
    · simp [OAuthHandler.validate_state, OAuthHandler.StateCache.erase, h, h6]

/-- C2 witness: a concrete issued state, validated 700 seconds after
issuance, is rejected and removed from the pending map. -/
theorem validate_state_consume_once_witness :
    (OAuthHandler.validate_state "s" 700
        (fun v => if v = "s" then some 0 else none)).1 = false ∧
    (OAuthHandler.validate_state "s" 700
        (fun v => if v = "s" then some 0 else none)).2 "s" = none := by
  have h := (validate_state_consume_once "s" 700
      (fun v => if v = "s" then some 0 else none)).2 0 (by simp)
  exact ⟨h.2.1 (by decide), h.1⟩

/-- C3 counterexample: a configuration with client_id and client_secret
both empty produces the `ValueError` naming only
`ATLASSIAN_OAUTH_CLIENT_ID` — exactly the error produced when only the
client_id is missing — so validation does not enumerate every violated
constraint: it stops at the first one. -/
theorem validate_first_error_only_counterexample :
    AtlassianOAuthConfig.validate
        ⟨"", "", "https://example.com/callback", DEFAULT_SCOPES⟩ =
      some "ATLASSIAN_OAUTH_CLIENT_ID is required" ∧
    AtlassianOAuthConfig.validate
        ⟨"", "", "https://example.com/callback", DEFAULT_SCOPES⟩ =
      AtlassianOAuthConfig.validate
        ⟨"", "secret", "https://example.com/callback", DEFAULT_SCOPES⟩ ∧
    "ATLASSIAN_OAUTH_CLIENT_ID is required" ≠
      "ATLASSIAN_OAUTH_CLIENT_SECRET is required" := by
  refine ⟨rfl, rfl, by decide⟩

/-- C3 (amended): for every configuration with an empty client_id, empty
client_secret, or empty/invalid redirect_uri, validation fails — with a
configuration error naming only the first violated constraint in the
fixed check order client_id, client_secret, redirect_uri presence,
redirect_uri scheme (it does not collect the remaining violations). -/
theorem validate_reports_first_violation (c : AtlassianOAuthConfig) :
    ((c.client_id = "" ∨ c.client_secret = "" ∨ c.redirect_uri = "" ∨
      (c.redirect_uri.startsWith "https://" = false ∧
       c.redirect_uri.startsWith "http://localhost" = false)) →
      (AtlassianOAuthConfig.validate c).isSome = true) ∧
    (c.client_id = "" →
      AtlassianOAuthConfig.validate c =
        some "ATLASSIAN_OAUTH_CLIENT_ID is required") ∧
    (c.client_id ≠ "" → c.client_secret = "" →
      AtlassianOAuthConfig.validate c =
        some "ATLASSIAN_OAUTH_CLIENT_SECRET is required") ∧
    (c.client_id ≠ "" → c.client_secret ≠ "" → c.redirect_uri = "" →
      AtlassianOAuthConfig.validate c =
        some "ATLASSIAN_OAUTH_REDIRECT_URI is required") ∧
    (c.client_id ≠ "" → c.client_secret ≠ "" → c.redirect_uri ≠ "" →
      c.redirect_uri.startsWith "https://" = false →
      c.redirect_uri.startsWith "http://localhost" = false →
      AtlassianOAuthConfig.validate c =
        some "ATLASSIAN_OAUTH_REDIRECT_URI must use HTTPS (or http://localhost for development)") := by
  refine ⟨?_, ?_, ?_, ?_, ?_⟩
  · rintro (h | h | h | ⟨h1, h2⟩)
    · simp [AtlassianOAuthConfig.validate, h]
    · by_cases hid : c.client_id = "" <;>
        simp [AtlassianOAuthConfig.validate, hid, h]
    · by_cases hid : c.client_id = "" <;>
        by_cases hsec : c.client_secret = "" <;>
        simp [AtlassianOAuthConfig.validate, hid, hsec, h]
    · by_cases hid : c.client_id = "" <;>
        by_cases hsec : c.client_secret = "" <;>
        by_cases hru : c.redirect_uri = "" <;>
        simp [AtlassianOAuthConfig.validate, hid, hsec, hru, h1, h2]
  · intro h
    simp [AtlassianOAuthConfig.validate, h]
  · intro h1 h2
    simp [AtlassianOAuthConfig.validate, h1, h2]
  · intro h1 h2 h3
    simp [AtlassianOAuthConfig.validate, h1, h2, h3]
  · intro h1 h2 h3 h4 h5
    simp [AtlassianOAuthConfig.validate, h1, h2, h3, h4, h5]

/-- C3 witness: the amended first-violation behaviour evaluated at a
concrete configuration missing only its client_id. -/
theorem validate_reports_first_violation_witness :
    AtlassianOAuthConfig.validate
        ⟨"", "secret2", "https://example.org/cb", DEFAULT_SCOPES⟩ =
      some "ATLASSIAN_OAUTH_CLIENT_ID is required" :=
  (validate_reports_first_violation
      ⟨"", "secret2", "https://example.org/cb", DEFAULT_SCOPES⟩).2.1 rfl

/-- C6: `handle_callback` invoked with a state value absent from the
pending-state map fails immediately with error `invalid_state`, performs
no call to the token endpoint, and leaves the pending map unchanged. -/
theorem handle_callback_unknown_state_rejected (state : String) (now : Int)
    (cache : OAuthHandler.StateCache) (exch : OAuthHandler.ExchangeOutcome)
    (store_ok : Bool) (h : cache state = none) :
    (OAuthHandler.handle_callback state now cache exch store_ok).1 =
      { success := false, error := some "invalid_state" } ∧
    (OAuthHandler.handle_callback state now cache exch store_ok).2.2 = 0 ∧
    (OAuthHandler.handle_callback state now cache exch store_ok).2.1 = cache := by
  refine ⟨?_, ?_, ?_⟩ <;>
    simp [OAuthHandler.handle_callback, OAuthHandler.validate_state, h]

/-- C6 witness: a concrete callback with a never-issued state. -/
theorem handle_callback_unknown_state_rejected_witness :
    (OAuthHandler.handle_callback "s" 0 (fun _ => none)
        (OAuthHandler.ExchangeOutcome.failure "x") true).1 =
      { success := false, error := some "invalid_state" } ∧
    (OAuthHandler.handle_callback "s" 0 (fun _ => none)
        (OAuthHandler.ExchangeOutcome.failure "x") true).2.2 = 0 ∧
    (OAuthHandler.handle_callback "s" 0 (fun _ => none)
        (OAuthHandler.ExchangeOutcome.failure "x") true).2.1 = (fun _ => none) :=
  handle_callback_unknown_state_rejected "s" 0 (fun _ => none)
    (OAuthHandler.ExchangeOutcome.failure "x") true rfl

/-- C1: at the failing input — a request answered 401, a refresh that
succeeds, and a reissued request answered 401 again — the client makes
exactly one refresh, reissues the request exactly once, and performs
three HTTP calls in total, but the final error is a `TokenRefreshError`,
not the `InvalidTokenError` the claim (and the code's own raise at that
point) prescribes: the blanket `except Exception` of the refresh handler
wraps the `InvalidTokenError` into a `TokenRefreshError`. -/
theorem request_second_401_wrapped_into_refresh_error :
    AtlassianAPIClient.request (some "tok")
        (fun _ => AtlassianAPIClient.NetAttempt.ok ⟨401⟩)
        ⟨true, 1, some "tok2"⟩
        (fun _ => AtlassianAPIClient.NetAttempt.ok ⟨401⟩) =
      (AtlassianAPIClient.RequestOutcome.tokenRefreshFailed, 3) ∧
    AtlassianAPIClient.RequestOutcome.tokenRefreshFailed ≠
      AtlassianAPIClient.RequestOutcome.invalidToken := by
  refine ⟨rfl, by simp⟩

/-- C4: at the failing input — every attempt of a GET raising a
connection error — the client makes exactly 3 attempts under its retry
policy, but the failure then escapes as the raw `tenacity.RetryError`
(tenacity's default `reraise=False`), which no `except` clause of
`_request` maps to `NetworkError`: the typed `NetworkError` the claim
prescribes is never produced on this path. -/
theorem request_retry_exhaustion_escapes_untyped :
    AtlassianAPIClient.request (some "tok")
        (fun _ => AtlassianAPIClient.NetAttempt.connError)
        ⟨true, 1, some "tok2"⟩
        (fun _ => AtlassianAPIClient.NetAttempt.ok ⟨200⟩) =
      (AtlassianAPIClient.RequestOutcome.rawRetryError, 3) ∧
    AtlassianAPIClient.RequestOutcome.rawRetryError ≠
      AtlassianAPIClient.RequestOutcome.networkError := by
  refine ⟨rfl, by simp⟩

end Sidekick
